/-
Verification of the campus-events application's calendar projection and
filter engine (dashboard page, calendar page, event-creation form and the
events API routes).

Timestamps are modelled as milliseconds on the local-time axis (`Int`), so a
JavaScript `Date`'s local accessors become pure arithmetic: the local
calendar day is the floor of `t / 86400000`, and the civil (year, month,
day) triple is recovered from that day count with the standard proleptic
Gregorian conversion.  Division on `Int` in Lean is floor division for
positive divisors, matching the behaviour of the calendar accessors for
instants before and after the epoch.
-/
import Mathlib

set_option maxHeartbeats 1600000
set_option maxRecDepth 8000

namespace CampusPlus

/-! ## Local-time primitives (source: date helpers in the dashboard and calendar pages) -/

/-- Local calendar day index of an instant: days since 1970-01-01 (local). -/
def epochDay (t : Int) : Int := t / 86400000

/-- Local hour of day, as returned by `getHours()`. -/
def getHours (t : Int) : Int := t / 3600000 % 24

/-- Local day of week, as returned by `getDay()`: 0 = Sunday .. 6 = Saturday.
1970-01-01 was a Thursday (4). -/
def getDay (t : Int) : Int := (epochDay t + 4) % 7

/-- Clamp an instant to local midnight, modelling `setHours(0, 0, 0, 0)`. -/
def startOfDay (t : Int) : Int := epochDay t * 86400000

/-- Source `endOfDay`: clamp to `23:59:59.999` local, via `setHours(23, 59, 59, 999)`. -/
def endOfDay (t : Int) : Int := startOfDay t + 86399999

/-- Source `addDays`: shift by whole local calendar days via `setDate`. -/
def addDays (t : Int) (amount : Int) : Int := t + amount * 86400000

/-- Source `getUpcomingDay`: walk forward `(targetDay - getDay + 7) % 7` days
(`setDate`), then clamp to local midnight (`setHours(0,0,0,0)`). -/
def getUpcomingDay (t : Int) (targetDay : Int) : Int :=
  startOfDay (addDays t ((targetDay - getDay t + 7) % 7))

/-- Civil (year, month 1..12, day 1..31) from a local day index, proleptic
Gregorian (Howard Hinnant's `civil_from_days`, floor-division form).  This is
the arithmetic content of the `Date` accessors `getFullYear` / `getMonth` /
`getDate`. -/
def civilFromDays (z0 : Int) : Int × Int × Int :=
  let z := z0 + 719468
  let era := z / 146097
  let doe := z - era * 146097
  let yoe := (doe - doe / 1460 + doe / 36524 - doe / 146096) / 365
  let y := yoe + era * 400
  let doy := doe - (365 * yoe + yoe / 4 - yoe / 100)
  let mp := (5 * doy + 2) / 153
  let d := doy - (153 * mp + 2) / 5 + 1
  let m := if mp < 10 then mp + 3 else mp - 9
  (y + (if m ≤ 2 then 1 else 0), m, d)

/-- Local calendar year of an instant (`getFullYear()`). -/
def getFullYear (t : Int) : Int := (civilFromDays (epochDay t)).1

/-- Local calendar month of an instant, 0-based as in `getMonth()`. -/
def getMonth (t : Int) : Int := (civilFromDays (epochDay t)).2.1 - 1

/-- Local day of month of an instant (`getDate()`). -/
def getDate (t : Int) : Int := (civilFromDays (epochDay t)).2.2

/-- Source `isSameDay`: compare the full local (year, month, day) triple. -/
def isSameDay (a : Int) (b : Int) : Bool :=
  getFullYear a == getFullYear b && getMonth a == getMonth b && getDate a == getDate b

/-- Zero-pad a month or day number to two digits (`String(x).padStart(2, "0")`). -/
def pad2 (n : Int) : String := if n < 10 then "0" ++ toString n else toString n

/-- Source `formatDateKey`: the `"YYYY-MM-DD"` local day key of an instant. -/
def formatDateKey (t : Int) : String :=
  toString (getFullYear t) ++ "-" ++ pad2 (getMonth t + 1) ++ "-" ++ pad2 (getDate t)

/-! ## Event records -/

/-- Source `EventRow`: the event record used by the dashboard and calendar pages.
`starts_at` / `ends_at` are the parsed instants of the stored ISO strings. -/
structure EventRow where
  id : String
  title : String
  club : String
  starts_at : Int
  ends_at : Option Int
  location : String
  tags : List String
  current_attendees : Nat
deriving DecidableEq, Repr

/-! ## Calendar page: event-to-day bucketing (`eventsByDate`) -/

/-- Source `eventsByDate` (calendar page): fold over the event list; each event
is pushed onto the bucket keyed by `formatDateKey(new Date(event.starts_at))`.
The resulting map is modelled as the lookup function from a day key to its
bucket (missing keys give the empty bucket, matching `map.get(key) || []`). -/
def eventsByDate (events : List EventRow) : String → List EventRow :=
  events.foldl
    (fun map event =>
      let dateKey := formatDateKey event.starts_at
      fun key => if key == dateKey then map key ++ [event] else map key)
    (fun _ => [])

theorem eventsByDate_foldl (events : List EventRow) (acc : String → List EventRow)
    (k : String) :
    (events.foldl
      (fun map event =>
        let dateKey := formatDateKey event.starts_at
        fun key => if key == dateKey then map key ++ [event] else map key)
      acc) k
      = acc k ++ events.filter (fun e => formatDateKey e.starts_at == k) := by
  induction events generalizing acc with
  | nil => simp
  | cons a l ih =>
      rw [List.foldl_cons, ih, List.filter_cons]
      by_cases h : formatDateKey a.starts_at = k
      · subst h
        simp
      · have h1 : (k == formatDateKey a.starts_at) = false := by
          simp [beq_eq_false_iff_ne]
          exact fun hc => h hc.symm
        have h2 : (formatDateKey a.starts_at == k) = false := by
          simp [beq_eq_false_iff_ne]
          exact h
        rw [h1, h2]
        simp

/-- A concrete multi-day event: starts 2024-06-28 10:00 local
(1719568800000 ms), ends 2024-06-30 12:00 local (1719748800000 ms). -/
def mdEvent : EventRow :=
  { id := ("md1"), title := ("Retreat"), club := ("Outdoors Club"),
    starts_at := 1719568800000, ends_at := some 1719748800000,
    location := ("Lakeside"), tags := [("social")], current_attendees := 5 }

/-- C1 counterexample: the `[starts_at, ends_at]` interval of `mdEvent` touches
three local calendar days (06-28, 06-29, 06-30), but `eventsByDate` inserts the
event into the 06-28 bucket only — the 06-29 and 06-30 buckets are empty, so a
3-day event appears in 1 bucket, not 3. -/
theorem eventsByDate_multiday_counterexample :
    epochDay 1719748800000 - epochDay 1719568800000 = 2
    ∧ formatDateKey 1719568800000 = ("2024-06-28")
    ∧ formatDateKey 1719748800000 = ("2024-06-30")
    ∧ eventsByDate [mdEvent] ("2024-06-28") = [mdEvent]
    ∧ eventsByDate [mdEvent] ("2024-06-29") = []
    ∧ eventsByDate [mdEvent] ("2024-06-30") = [] := by
  refine ⟨by decide, by decide, by decide, by decide, by decide, by decide⟩

/-- C1 (amended): the calendar's event-to-day bucketing inserts every event
into exactly one day bucket — the one keyed by the `dayKey` of its `starts_at`
local day; `ends_at` plays no part, so an event is in the bucket `k` iff it is
in the source list and `k` is the day key of its start instant. -/
theorem eventsByDate_buckets_by_start_only (events : List EventRow) (k : String)
    (e : EventRow) :
    e ∈ eventsByDate events k ↔ e ∈ events ∧ formatDateKey e.starts_at = k := by
  unfold eventsByDate
  rw [eventsByDate_foldl]
  simp [List.mem_filter]

/-! ## Calendar page: month grid (`calendarDays`)

The grid computation only consumes `getFullYear()` / `getMonth()` of the
reference date and then works with whole local days, so it is modelled on
absolute day indices (days since 0000-01-01, proleptic Gregorian; that day
was a Saturday).  `Date(year, month, 1)` is faithful for `year ≥ 100`
(below 100 JavaScript remaps the year to 1900 + year). -/

/-- Gregorian leap-year rule, as implemented by `Date`. -/
def isLeapYear (y : Nat) : Bool := decide (y % 4 = 0 ∧ y % 100 ≠ 0 ∨ y % 400 = 0)

/-- Days from 0000-01-01 to `y`-01-01 (closed form counting leap years below `y`). -/
def daysBeforeYear (y : Nat) : Nat :=
  365 * y + (y + 3) / 4 - (y + 99) / 100 + (y + 399) / 400

/-- Length of month `m` (0-based as in `getMonth()`) of year `y`. -/
def daysInMonth (y : Nat) (m : Nat) : Nat :=
  match m with
  | 0 => 31
  | 1 => if isLeapYear y then 29 else 28
  | 2 => 31
  | 3 => 30
  | 4 => 31
  | 5 => 30
  | 6 => 31
  | 7 => 31
  | 8 => 30
  | 9 => 31
  | 10 => 30
  | _ => 31

/-- Days from `y`-01-01 to the first of month `m` (0-based) of year `y`. -/
def daysBeforeMonth (y : Nat) : Nat → Nat
  | 0 => 0
  | m + 1 => daysBeforeMonth y m + daysInMonth y m

/-- Absolute day index of the local date (`y`, `m` 0-based, `d`), i.e. the
day `new Date(y, m, d)` denotes, counted from 0000-01-01. -/
def dayNumber (y m d : Nat) : Int :=
  (daysBeforeYear y : Int) + (daysBeforeMonth y m : Int) + (d : Int) - 1

/-- Day of week of an absolute day index, 0 = Sunday .. 6 = Saturday
(0000-01-01 was a Saturday). -/
def dayOfWeek (n : Int) : Int := (n + 6) % 7

/-- Code `firstDay = new Date(year, month, 1)`: first day of the month. -/
def firstOfMonth (year month : Nat) : Int := dayNumber year month 1

/-- Code `lastDay = new Date(year, month + 1, 0)`: the day before the first of
the next month (rolling over to January of the next year from December). -/
def lastOfMonth (year month : Nat) : Int :=
  (if month = 11 then dayNumber (year + 1) 0 1 else dayNumber year (month + 1) 1) - 1

/-- The `while (current <= endDate)` loop: `n` consecutive days from `startDate`. -/
def rangeDays (startDate : Int) (n : Nat) : List Int :=
  (List.range n).map (fun i : Nat => startDate + (i : Int))

/-- Source `calendarDays` (calendar page): walk back from the 1st to its week's
Sunday, forward from the last day to its week's Saturday, and emit every day in
between inclusive. -/
def calendarDays (year month : Nat) : List Int :=
  let firstDay := firstOfMonth year month
  let lastDay := lastOfMonth year month
  let startDate := firstDay - dayOfWeek firstDay
  let endDate := lastDay + (6 - dayOfWeek lastDay)
  rangeDays startDate (endDate - startDate + 1).toNat

theorem rangeDays_length (s : Int) (n : Nat) : (rangeDays s n).length = n := by
  unfold rangeDays
  rw [List.length_map, List.length_range]

theorem rangeDays_getElem (s : Int) (n : Nat) (i : Nat) (h : i < (rangeDays s n).length) :
    (rangeDays s n)[i] = s + (i : Int) := by
  unfold rangeDays
  rw [List.getElem_map, List.getElem_range]

theorem rangeDays_mem (s : Int) (n : Nat) (d : Int) :
    d ∈ rangeDays s n ↔ s ≤ d ∧ d < s + n := by
  unfold rangeDays
  rw [List.mem_map]
  constructor
  · rintro ⟨j, hj, rfl⟩
    rw [List.mem_range] at hj
    omega
  · intro h
    refine ⟨(d - s).toNat, ?_, ?_⟩
    · rw [List.mem_range]
      omega
    · omega

theorem daysBeforeYear_succ (y : Nat) :
    daysBeforeYear (y + 1) = daysBeforeYear y + (if isLeapYear y then 366 else 365) := by
  simp only [daysBeforeYear, isLeapYear]
  by_cases h : y % 4 = 0 ∧ y % 100 ≠ 0 ∨ y % 400 = 0
  · rw [if_pos (decide_eq_true h)]
    omega
  · rw [if_neg (by simpa using h)]
    omega

theorem daysBeforeMonth_twelve (y : Nat) :
    daysBeforeMonth y 12 = if isLeapYear y then 366 else 365 := by
  simp only [daysBeforeMonth, daysInMonth]
  split <;> omega

theorem daysInMonth_ge (y m : Nat) : 28 ≤ daysInMonth y m := by
  unfold daysInMonth
  split
  any_goals omega
  split <;> omega

theorem daysInMonth_le (y m : Nat) : daysInMonth y m ≤ 31 := by
  unfold daysInMonth
  split
  any_goals omega
  split <;> omega

theorem lastOfMonth_eq (year month : Nat) (hm : month < 12) :
    lastOfMonth year month = firstOfMonth year month + (daysInMonth year month : Int) - 1 := by
  unfold lastOfMonth firstOfMonth
  by_cases h : month = 11
  · subst h
    rw [if_pos rfl]
    unfold dayNumber
    have h1 := daysBeforeYear_succ year
    have h2 := daysBeforeMonth_twelve year
    have h3 : daysBeforeMonth year 12 = daysBeforeMonth year 11 + daysInMonth year 11 := rfl
    have h4 : daysBeforeMonth (year + 1) 0 = 0 := rfl
    split at h1 <;> split at h2 <;> first | omega | simp_all
  · rw [if_neg h]
    unfold dayNumber
    have h3 : daysBeforeMonth year (month + 1) = daysBeforeMonth year month + daysInMonth year month := rfl
    omega

/-- C2: for every reference month (`getFullYear` ≥ 100 so that the `Date`
constructor is the identity on years, month 0..11), `calendarDays` is an
ordered sequence of consecutive dates whose length is a non-zero multiple of
7, beginning at the Sunday on or before the 1st of the month (day-of-week 0,
at most 6 days before the 1st), ending at the Saturday on or after the last
day of the month (day-of-week 6, at most 6 days after it), and containing
every day of the month. -/
theorem calendarDays_spec (year month : Nat) (_hy : 100 ≤ year) (hm : month < 12) :
    (calendarDays year month).length % 7 = 0
    ∧ (calendarDays year month).length ≠ 0
    ∧ (∀ (i : Nat) (h : i < (calendarDays year month).length),
        (calendarDays year month)[i]
          = firstOfMonth year month - dayOfWeek (firstOfMonth year month) + (i : Int))
    ∧ (∀ d : Int, d ∈ calendarDays year month ↔
        firstOfMonth year month - dayOfWeek (firstOfMonth year month) ≤ d
          ∧ d ≤ lastOfMonth year month + (6 - dayOfWeek (lastOfMonth year month)))
    ∧ dayOfWeek (firstOfMonth year month - dayOfWeek (firstOfMonth year month)) = 0
    ∧ firstOfMonth year month - dayOfWeek (firstOfMonth year month)
        ≤ firstOfMonth year month
    ∧ firstOfMonth year month
        - (firstOfMonth year month - dayOfWeek (firstOfMonth year month)) < 7
    ∧ dayOfWeek (lastOfMonth year month + (6 - dayOfWeek (lastOfMonth year month))) = 6
    ∧ lastOfMonth year month
        ≤ lastOfMonth year month + (6 - dayOfWeek (lastOfMonth year month))
    ∧ lastOfMonth year month + (6 - dayOfWeek (lastOfMonth year month))
        - lastOfMonth year month < 7
    ∧ (∀ d : Int, firstOfMonth year month ≤ d → d ≤ lastOfMonth year month →
        d ∈ calendarDays year month) := by
  have hlast := lastOfMonth_eq year month hm
  have h28 := daysInMonth_ge year month
  have h31 := daysInMonth_le year month
  have hlen : (calendarDays year month).length
      = ((lastOfMonth year month + (6 - dayOfWeek (lastOfMonth year month)))
          - (firstOfMonth year month - dayOfWeek (firstOfMonth year month)) + 1).toNat := by
    simp only [calendarDays]
    exact rangeDays_length _ _
  have hmem : ∀ d : Int, d ∈ calendarDays year month ↔
      firstOfMonth year month - dayOfWeek (firstOfMonth year month) ≤ d
        ∧ d ≤ lastOfMonth year month + (6 - dayOfWeek (lastOfMonth year month)) := by
    intro d
    simp only [calendarDays]
    rw [rangeDays_mem]
    unfold dayOfWeek at *
    constructor <;> intro h <;> constructor <;> omega
  refine ⟨?_, ?_, ?_, hmem, ?_, ?_, ?_, ?_, ?_, ?_, ?_⟩
  · rw [hlen]
    unfold dayOfWeek at *
    omega
  · rw [hlen]
    unfold dayOfWeek at *
    omega
  · intro i h
    simp only [calendarDays] at h ⊢
    exact rangeDays_getElem _ _ i h
  · unfold dayOfWeek
    omega
  · unfold dayOfWeek
    omega
  · unfold dayOfWeek
    omega
  · unfold dayOfWeek
    omega
  · unfold dayOfWeek
    omega
  · unfold dayOfWeek
    omega
  · intro d h1 h2
    rw [hmem d]
    unfold dayOfWeek at *
    omega

/-- Witness for C2 at June 2024: the grid length is a multiple of 7 and both
the 1st and the last day of the month lie in the grid. -/
theorem calendarDays_spec_witness :
    (calendarDays 2024 5).length % 7 = 0
    ∧ firstOfMonth 2024 5 ∈ calendarDays 2024 5
    ∧ lastOfMonth 2024 5 ∈ calendarDays 2024 5 := by
  have h := calendarDays_spec 2024 5 (by decide) (by decide)
  refine ⟨h.1, ?_, ?_⟩
  · exact h.2.2.2.2.2.2.2.2.2.2 (firstOfMonth 2024 5) (by decide) (by decide)
  · exact h.2.2.2.2.2.2.2.2.2.2 (lastOfMonth 2024 5) (by decide) (by decide)

/-! ## Dashboard page: filter predicates -/

/-- Character-wise lowercasing of `toLowerCase()` (ASCII case mapping). -/
def lowerList : List Char → List Char
  | [] => []
  | c :: cs => c.toLower :: lowerList cs

/-- Lowercase a string, modelling `s.toLowerCase()`. -/
def lowerStr (s : String) : String := String.mk (lowerList s.toList)

/-- Does `q` match the front of the second list? (helper for `includes`). -/
def headMatches : List Char → List Char → Bool
  | [], _ => true
  | _ :: _, [] => false
  | p :: ps, c :: cs => (p == c) && headMatches ps cs

/-- Scan for `q` at every position (helper for `includes`). -/
def strIncludesAux (q : List Char) : List Char → Bool
  | [] => headMatches q []
  | c :: cs => headMatches q (c :: cs) || strIncludesAux q cs

/-- Substring test, modelling JavaScript `s.includes(q)`. -/
def strIncludes (s q : String) : Bool := strIncludesAux q.toList s.toList

theorem headMatches_iff (q : List Char) : ∀ l : List Char,
    headMatches q l = true ↔ ∃ t, q ++ t = l := by
  induction q with
  | nil =>
      intro l
      simp [headMatches]
  | cons p ps ih =>
      intro l
      cases l with
      | nil =>
          simp [headMatches]
      | cons c cs =>
          rw [show headMatches (p :: ps) (c :: cs) = ((p == c) && headMatches ps cs) from rfl]
          rw [Bool.and_eq_true, beq_iff_eq, ih cs]
          constructor
          · rintro ⟨rfl, t, rfl⟩
            exact ⟨t, rfl⟩
          · rintro ⟨t, ht⟩
            rw [List.cons_append] at ht
            injection ht with h1 h2
            exact ⟨h1, t, h2⟩

theorem strIncludesAux_iff (q : List Char) : ∀ l : List Char,
    strIncludesAux q l = true ↔ ∃ pre post, pre ++ q ++ post = l := by
  intro l
  induction l with
  | nil =>
      rw [show strIncludesAux q [] = headMatches q [] from rfl, headMatches_iff]
      constructor
      · rintro ⟨t, ht⟩
        exact ⟨[], t, ht⟩
      · rintro ⟨pre, post, h⟩
        rcases List.append_eq_nil.mp h with ⟨h1, h2⟩
        rcases List.append_eq_nil.mp h1 with ⟨h3, h4⟩
        exact ⟨post, by simp [h2, h4]⟩
  | cons c cs ih =>
      rw [show strIncludesAux q (c :: cs) = (headMatches q (c :: cs) || strIncludesAux q cs) from rfl]
      rw [Bool.or_eq_true, headMatches_iff, ih]
      constructor
      · rintro (⟨t, ht⟩ | ⟨pre, post, h⟩)
        · exact ⟨[], t, by simp [ht]⟩
        · exact ⟨c :: pre, post, by simp [h]⟩
      · rintro ⟨pre, post, h⟩
        cases pre with
        | nil =>
            left
            exact ⟨post, by simpa using h⟩
        | cons x pre =>
            right
            rw [List.cons_append, List.cons_append] at h
            injection h with h1 h2
            exact ⟨pre, post, h2⟩

theorem strIncludes_iff (s q : String) :
    strIncludes s q = true ↔ ∃ pre post, pre ++ q.toList ++ post = s.toList := by
  unfold strIncludes
  exact strIncludesAux_iff q.toList s.toList

/-- Source `matchesSearchQuery` (dashboard page): empty query matches every
event, otherwise case-insensitive substring match on title or club. -/
def matchesSearchQuery (event : EventRow) (query : String) : Bool :=
  if query.isEmpty then true
  else
    let normalizedQuery := lowerStr query
    strIncludes (lowerStr event.title) normalizedQuery
      || strIncludes (lowerStr event.club) normalizedQuery

/-- The tag predicate inlined in `filteredEvents`:
`selectedTagFilter === "All" || event.tags.includes(selectedTagFilter)`. -/
def matchesTagFilter (event : EventRow) (selectedTagFilter : String) : Bool :=
  selectedTagFilter == ("All") || event.tags.contains selectedTagFilter

/-- The four dashboard time filters. -/
inductive TimeFilter
  | all
  | today
  | tonight
  | thisWeekend
deriving DecidableEq, Repr

/-- Source `matchesTimeFilter` (dashboard page), with the `new Date()` read of
the current instant passed in explicitly as `now`. -/
def matchesTimeFilter (event : EventRow) (filter : TimeFilter) (now : Int) : Bool :=
  match filter with
  | .all => true
  | .today => isSameDay event.starts_at now
  | .tonight => isSameDay event.starts_at now && decide (17 ≤ getHours event.starts_at)
  | .thisWeekend =>
      let weekendStart := getUpcomingDay now 6
      let weekendEnd := endOfDay (addDays weekendStart 1)
      decide (weekendStart ≤ event.starts_at) && decide (event.starts_at ≤ weekendEnd)

/-- Source `filteredEvents` (dashboard page): conjunction of the three predicates. -/
def filteredEvents (events : List EventRow) (searchQuery selectedTagFilter : String)
    (selectedTimeFilter : TimeFilter) (now : Int) : List EventRow :=
  events.filter fun event =>
    matchesSearchQuery event searchQuery
      && matchesTagFilter event selectedTagFilter
      && matchesTimeFilter event selectedTimeFilter now

/-- C3: an event of the source list appears in the dashboard's filtered
results iff the search predicate AND the tag predicate AND the time predicate
all hold for it; the empty query matches every event (otherwise the match is
a case-insensitive substring test against title or club), and the `"All"` tag
selection matches every event (otherwise tag-set membership decides). -/
theorem filteredEvents_spec (events : List EventRow) (q tag : String)
    (tf : TimeFilter) (now : Int) (e : EventRow) (he : e ∈ events) :
    (e ∈ filteredEvents events q tag tf now ↔
      matchesSearchQuery e q = true
        ∧ matchesTagFilter e tag = true
        ∧ matchesTimeFilter e tf now = true)
    ∧ matchesSearchQuery e ("") = true
    ∧ matchesTagFilter e ("All") = true
    ∧ (tag ≠ ("All") → matchesTagFilter e tag = e.tags.contains tag)
    ∧ (¬ q.isEmpty = true → (matchesSearchQuery e q = true ↔
        (∃ pre post, pre ++ (lowerStr q).toList ++ post = (lowerStr e.title).toList)
          ∨ (∃ pre post, pre ++ (lowerStr q).toList ++ post = (lowerStr e.club).toList))) := by
  refine ⟨?_, ?_, ?_, ?_, ?_⟩
  · unfold filteredEvents
    rw [List.mem_filter]
    simp [he, Bool.and_eq_true, and_assoc]
  · rfl
  · simp [matchesTagFilter]
  · intro h
    unfold matchesTagFilter
    rw [show (tag == ("All")) = false from beq_eq_false_iff_ne.mpr h]
    simp
  · intro h
    unfold matchesSearchQuery
    rw [if_neg (by simpa using h)]
    rw [Bool.or_eq_true, strIncludes_iff, strIncludes_iff]

/-- Witness for C3: a query matching the title puts the event in the results;
the spec's own example strings are used. -/
theorem filteredEvents_spec_witness :
    mdEvent ∈ filteredEvents [mdEvent] ("retreat") ("All") TimeFilter.all 0
    ∧ matchesSearchQuery mdEvent ("") = true :=
  ⟨(filteredEvents_spec [mdEvent] ("retreat") ("All") TimeFilter.all 0 mdEvent
      (by decide)).1.mpr ⟨by decide, by decide, by decide⟩,
   (filteredEvents_spec [mdEvent] ("retreat") ("All") TimeFilter.all 0 mdEvent
      (by decide)).2.1⟩

theorem isSameDay_of_epochDay_eq (a b : Int) (h : epochDay a = epochDay b) :
    isSameDay a b = true := by
  simp [isSameDay, getFullYear, getMonth, getDate, h]

/-- C4: the "Tonight" filter holds iff `starts_at` is on the same local
calendar day as `now` and its local hour is at least 17; hence "Tonight"
implies "Today", and an event starting at 19:00 local on the current day
(`startOfDay now + 68400000` ms) matches both. -/
theorem tonight_filter_spec (e : EventRow) (now : Int) :
    (matchesTimeFilter e TimeFilter.tonight now = true ↔
      isSameDay e.starts_at now = true ∧ 17 ≤ getHours e.starts_at)
    ∧ (matchesTimeFilter e TimeFilter.tonight now = true →
        matchesTimeFilter e TimeFilter.today now = true)
    ∧ (e.starts_at = startOfDay now + 68400000 →
        matchesTimeFilter e TimeFilter.tonight now = true
          ∧ matchesTimeFilter e TimeFilter.today now = true) := by
  have hiff : matchesTimeFilter e TimeFilter.tonight now = true ↔
      isSameDay e.starts_at now = true ∧ 17 ≤ getHours e.starts_at := by
    unfold matchesTimeFilter
    rw [Bool.and_eq_true, decide_eq_true_eq]
  refine ⟨hiff, ?_, ?_⟩
  · intro h
    exact (hiff.mp h).1
  · intro h
    have hday : epochDay e.starts_at = epochDay now := by
      rw [h]
      unfold startOfDay epochDay
      omega
    have hsame := isSameDay_of_epochDay_eq e.starts_at now hday
    have hhour : getHours e.starts_at = 19 := by
      rw [h]
      unfold getHours startOfDay epochDay
      omega
    constructor
    · exact hiff.mpr ⟨hsame, by omega⟩
    · exact hsame

/-- Witness for C4 at a concrete instant: now is 2024-06-28 10:00 local; an
event starting 19:00 that day matches "Tonight" and "Today". -/
theorem tonight_filter_spec_witness :
    matchesTimeFilter
        { mdEvent with starts_at := 1719601200000 } TimeFilter.tonight 1719568800000 = true
    ∧ matchesTimeFilter
        { mdEvent with starts_at := 1719601200000 } TimeFilter.today 1719568800000 = true :=
  (tonight_filter_spec { mdEvent with starts_at := 1719601200000 } 1719568800000).2.2
    (by decide)

/-- C5: the "This Weekend" filter holds iff `starts_at` lies in the closed
interval from local midnight of the upcoming (or today-if-Saturday) Saturday
through the end of day (23:59:59.999 local) of the following Sunday.  The
Saturday is characterised as the unique day index within 6 days of `now`'s
day whose day-of-week is 6. -/
theorem weekend_filter_spec (e : EventRow) (now : Int) :
    matchesTimeFilter e TimeFilter.thisWeekend now = true ↔
      ∃ sat : Int, getDay (sat * 86400000) = 6
        ∧ epochDay now ≤ sat ∧ sat ≤ epochDay now + 6
        ∧ sat * 86400000 ≤ e.starts_at
        ∧ e.starts_at ≤ endOfDay (addDays (sat * 86400000) 1) := by
  unfold matchesTimeFilter
  rw [Bool.and_eq_true, decide_eq_true_eq, decide_eq_true_eq]
  constructor
  · rintro ⟨h1, h2⟩
    refine ⟨epochDay now + (6 - getDay now + 7) % 7, ?_, ?_, ?_, ?_, ?_⟩ <;>
      (simp only [getUpcomingDay, endOfDay, addDays, getDay, startOfDay, epochDay] at * ; omega)
  · rintro ⟨sat, h1, h2, h3, h4, h5⟩
    constructor <;>
      (simp only [getUpcomingDay, endOfDay, addDays, getDay, startOfDay, epochDay] at * ; omega)

/-- Witness for C5: now is Friday 2024-06-28 10:00 local; an event starting
Saturday 2024-06-29 11:00 local matches "This Weekend" (Saturday is local day
index 19903). -/
theorem weekend_filter_spec_witness :
    matchesTimeFilter
        { mdEvent with starts_at := 1719658800000 } TimeFilter.thisWeekend 1719568800000 = true :=
  (weekend_filter_spec { mdEvent with starts_at := 1719658800000 } 1719568800000).mpr
    ⟨19903, by decide, by decide, by decide, by decide, by decide⟩

/-- C6: `getUpcomingDay` returns the next occurrence of the target weekday on
or after `t`, normalized to local midnight: the result is a midnight with the
requested day-of-week, not before `t`'s own midnight, at most 6 days after
`t`'s day, equal to `t`'s midnight when `t` already has that weekday, and no
later than any day of that weekday on or after `t`'s day. -/
theorem getUpcomingDay_spec (t targetDay : Int) (h0 : 0 ≤ targetDay) (h6 : targetDay ≤ 6) :
    getDay (getUpcomingDay t targetDay) = targetDay
    ∧ getUpcomingDay t targetDay = startOfDay (getUpcomingDay t targetDay)
    ∧ startOfDay t ≤ getUpcomingDay t targetDay
    ∧ epochDay (getUpcomingDay t targetDay) ≤ epochDay t + 6
    ∧ (getDay t = targetDay → getUpcomingDay t targetDay = startOfDay t)
    ∧ (∀ d : Int, epochDay t ≤ d → getDay (d * 86400000) = targetDay →
        epochDay (getUpcomingDay t targetDay) ≤ d) := by
  refine ⟨?_, ?_, ?_, ?_, ?_, ?_⟩
  · unfold getUpcomingDay startOfDay addDays getDay epochDay
    omega
  · unfold getUpcomingDay startOfDay addDays getDay epochDay
    omega
  · unfold getUpcomingDay startOfDay addDays getDay epochDay
    omega
  · unfold getUpcomingDay startOfDay addDays getDay epochDay
    omega
  · intro h
    unfold getUpcomingDay startOfDay addDays getDay epochDay at *
    omega
  · intro d hd hdow
    unfold getUpcomingDay startOfDay addDays getDay epochDay at *
    omega

/-- Witness for C6: called at Saturday 2024-06-29 15:00 local with target 6,
`getUpcomingDay` returns that same Saturday's local midnight, not 7 days
later. -/
theorem getUpcomingDay_spec_witness :
    getUpcomingDay 1719673200000 6 = 1719619200000 := by
  have h := (getUpcomingDay_spec 1719673200000 6 (by decide) (by decide)).2.2.2.2.1 (by decide)
  rw [h]
  decide

/-! ## Event-creation form (`validateForm` / `handleSubmit`)

The two `datetime-local` fields are modelled as `Option Int`: `none` is the
empty string, `some t` a non-empty value parsing to local instant `t`.  With
an empty `starts_at`, `new Date("")` is an invalid date and every comparison
against it is false, which the model reflects by recording no `ends_at`
error in that case. -/

/-- Whitespace test for `trim()` (the common ASCII whitespace characters). -/
def isWsChar (c : Char) : Bool :=
  c == ' ' || c == '\t' || c == '\n' || c == '\r'

/-- JavaScript `s.trim()`: strip leading and trailing whitespace. -/
def trimStr (s : String) : String :=
  String.mk (((s.toList.dropWhile isWsChar).reverse.dropWhile isWsChar).reverse)

def msgTitleRequired : String := "Event title is required"

def msgClubRequired : String := "Club name is required"

def msgStartRequired : String := "Start date and time is required"

def msgStartFuture : String := "Start time must be in the future"

def msgEndAfterStart : String := "End time must be after start time"

def msgLocationRequired : String := "Location is required"

def msgTagsRequired : String := "At least one tag is required"

/-- Source `EventFormData` with the datetime strings replaced by their parses. -/
structure EventFormData where
  title : String
  club : String
  starts_at : Option Int
  ends_at : Option Int
  location : String
  tags : List String
  current_attendees : Nat
deriving DecidableEq, Repr

/-- The `newErrors` record produced by `validateForm` (one slot per field). -/
structure FormErrors where
  title : Option String
  club : Option String
  starts_at : Option String
  ends_at : Option String
  location : Option String
  tags : Option String
deriving DecidableEq, Repr

/-- Source `validateForm` of the creation page, with `new Date()` passed as `now`. -/
def validateForm (formData : EventFormData) (now : Int) : FormErrors :=
  { title := if (trimStr formData.title).isEmpty then some msgTitleRequired else none
  , club := if (trimStr formData.club).isEmpty then some msgClubRequired else none
  , starts_at :=
      match formData.starts_at with
      | none => some msgStartRequired
      | some startDate => if startDate < now then some msgStartFuture else none
  , ends_at :=
      match formData.ends_at with
      | none => none
      | some endDate =>
          match formData.starts_at with
          | none => none
          | some startDate => if endDate ≤ startDate then some msgEndAfterStart else none
  , location := if (trimStr formData.location).isEmpty then some msgLocationRequired else none
  , tags := if formData.tags.isEmpty then some msgTagsRequired else none }

/-- Code `Object.keys(newErrors).length === 0`: no field has an error. -/
def hasNoErrors (e : FormErrors) : Bool :=
  e.title.isNone && e.club.isNone && e.starts_at.isNone
    && e.ends_at.isNone && e.location.isNone && e.tags.isNone

/-- The JSON body the form posts to `POST /api/events` on success. -/
structure PostPayload where
  title : String
  club : String
  starts_at : Option Int
  ends_at : Option Int
  location : String
  tags : List String
  current_attendees : Nat
deriving DecidableEq, Repr

/-- Outcome of `handleSubmit`: either blocked before any network call (with
the recorded field errors), or a `fetch('/api/events', {method: 'POST'})`
carrying the payload. -/
inductive SubmitOutcome
  | blocked (errors : FormErrors)
  | posted (payload : PostPayload)
deriving DecidableEq, Repr

/-- Source `handleSubmit`: early-return when `validateForm` failed (no network
call), otherwise post the trimmed payload. -/
def handleSubmit (formData : EventFormData) (now : Int) : SubmitOutcome :=
  if hasNoErrors (validateForm formData now) then
    SubmitOutcome.posted
      { title := trimStr formData.title
      , club := trimStr formData.club
      , starts_at := formData.starts_at
      , ends_at := formData.ends_at
      , location := trimStr formData.location
      , tags := formData.tags
      , current_attendees := formData.current_attendees }
  else SubmitOutcome.blocked (validateForm formData now)

/-- C7: when `ends_at` is present and strictly earlier than `starts_at`,
validation records the field-level error on `ends_at` and `handleSubmit` is
blocked, carrying exactly the recorded errors — no network call is made. -/
theorem create_end_before_start_rejected (fd : EventFormData) (now ts te : Int)
    (hs : fd.starts_at = some ts) (he : fd.ends_at = some te) (hlt : te < ts) :
    (validateForm fd now).ends_at = some msgEndAfterStart
    ∧ handleSubmit fd now = SubmitOutcome.blocked (validateForm fd now) := by
  have herr : (validateForm fd now).ends_at = some msgEndAfterStart := by
    simp only [validateForm, hs, he]
    rw [if_pos (by omega)]
  refine ⟨herr, ?_⟩
  unfold handleSubmit
  rw [if_neg ?_]
  simp [hasNoErrors, herr]

/-- Witness for C7: a concrete form whose end (1000 ms) precedes its start
(2000 ms) is blocked with the end-time error recorded. -/
theorem create_end_before_start_rejected_witness :
    (validateForm
        { title := ("T"), club := ("C"), starts_at := some 2000, ends_at := some 1000,
          location := ("L"), tags := [("tech")], current_attendees := 0 } 0).ends_at
      = some msgEndAfterStart
    ∧ handleSubmit
        { title := ("T"), club := ("C"), starts_at := some 2000, ends_at := some 1000,
          location := ("L"), tags := [("tech")], current_attendees := 0 } 0
      = SubmitOutcome.blocked
          (validateForm
            { title := ("T"), club := ("C"), starts_at := some 2000, ends_at := some 1000,
              location := ("L"), tags := [("tech")], current_attendees := 0 } 0) :=
  create_end_before_start_rejected
    { title := ("T"), club := ("C"), starts_at := some 2000, ends_at := some 1000,
      location := ("L"), tags := [("tech")], current_attendees := 0 }
    0 2000 1000 rfl rfl (by decide)

/-- C10: when `starts_at` parses to an instant strictly earlier than the
current time at validation, the form records the "Start time must be in the
future" error on `starts_at` and submission is blocked with no network call. -/
theorem create_start_in_past_rejected (fd : EventFormData) (now ts : Int)
    (hs : fd.starts_at = some ts) (hlt : ts < now) :
    (validateForm fd now).starts_at = some msgStartFuture
    ∧ handleSubmit fd now = SubmitOutcome.blocked (validateForm fd now) := by
  have herr : (validateForm fd now).starts_at = some msgStartFuture := by
    simp only [validateForm, hs]
    rw [if_pos (by omega)]
  refine ⟨herr, ?_⟩
  unfold handleSubmit
  rw [if_neg ?_]
  simp [hasNoErrors, herr]

/-- Witness for C10: a form starting at instant 5 validated at instant 10 is
blocked with the future-start error recorded. -/
theorem create_start_in_past_rejected_witness :
    (validateForm
        { title := ("T"), club := ("C"), starts_at := some 5, ends_at := none,
          location := ("L"), tags := [("tech")], current_attendees := 0 } 10).starts_at
      = some msgStartFuture
    ∧ handleSubmit
        { title := ("T"), club := ("C"), starts_at := some 5, ends_at := none,
          location := ("L"), tags := [("tech")], current_attendees := 0 } 10
      = SubmitOutcome.blocked
          (validateForm
            { title := ("T"), club := ("C"), starts_at := some 5, ends_at := none,
              location := ("L"), tags := [("tech")], current_attendees := 0 } 10) :=
  create_start_in_past_rejected
    { title := ("T"), club := ("C"), starts_at := some 5, ends_at := none,
      location := ("L"), tags := [("tech")], current_attendees := 0 }
    10 5 rfl (by decide)

/-! ## API routes (`GET /api/events`, `POST /api/events`)

The Supabase query is an external collaborator; its outcome is passed in as
an `Except` (success rows or an error message).  `isSupabaseConfigured()` is
the `configured` flag.  `Date.now()` of the serving side is `nowMs`;
`new Date().toISOString()` is `nowIso`.  A missing or empty JSON field is
falsy in the route's checks, so string fields model absence as `""` and the
optional fields as `Option`. -/

/-- Body of `POST /api/events` as read by the route. -/
structure PostBody where
  title : String
  club : String
  starts_at : String
  location : String
  ends_at : Option String
  tags : Option (List String)
  current_attendees : Option Nat
deriving DecidableEq, Repr

/-- A persisted (or locally synthesized) event row as returned by the API. -/
structure StoredEvent where
  id : String
  title : String
  club : String
  starts_at : String
  ends_at : Option String
  location : String
  tags : List String
  current_attendees : Nat
  status : String
  created_at : String
deriving DecidableEq, Repr

/-- An HTTP JSON response: success with data, or an error with a status code. -/
inductive ApiResponse (α : Type)
  | ok (status : Nat) (data : α)
  | err (status : Nat) (message : String)
deriving DecidableEq, Repr

/-- Source `GET /api/events`: unconfigured backends return `{data: []}`
immediately; a query error whose message looks like a misconfiguration also
degrades to the empty list, any other error becomes a 500. -/
def getEventsRoute (configured : Bool) (db : Except String (List StoredEvent)) :
    ApiResponse (List StoredEvent) :=
  if !configured then ApiResponse.ok 200 []
  else
    match db with
    | Except.ok rows => ApiResponse.ok 200 rows
    | Except.error message =>
        if strIncludes message ("Invalid API key") || strIncludes message ("JWT")
            || strIncludes message ("Supabase not configured")
        then ApiResponse.ok 200 []
        else ApiResponse.err 500 message

/-- Source `POST /api/events`: reject falsy required fields with 400; when the
backend is unconfigured (or errors like a misconfiguration), return 201 with
the locally synthesized record whose id is `Date.now().toString()`. -/
def postEventsRoute (configured : Bool) (db : Except String StoredEvent)
    (nowMs : Int) (nowIso : String) (body : PostBody) : ApiResponse StoredEvent :=
  if body.title.isEmpty || body.club.isEmpty || body.starts_at.isEmpty
      || body.location.isEmpty then
    ApiResponse.err 400 ("Missing required fields: title, club, starts_at, location")
  else
    let mkRecord := fun (idv : String) =>
      { id := idv
      , title := body.title
      , club := body.club
      , starts_at := body.starts_at
      , ends_at := body.ends_at
      , location := body.location
      , tags := body.tags.getD []
      , current_attendees := body.current_attendees.getD 0
      , status := ("scheduled")
      , created_at := nowIso : StoredEvent }
    if !configured then ApiResponse.ok 201 (mkRecord (toString nowMs))
    else
      match db with
      | Except.ok row => ApiResponse.ok 201 row
      | Except.error message =>
          if strIncludes message ("Invalid API key") || strIncludes message ("JWT")
              || strIncludes message ("Supabase not configured")
          then ApiResponse.ok 201 (mkRecord (toString nowMs))
          else ApiResponse.err 500 message

/-- C8: with the persistence backend not configured, the event-store routes do
not fail: `GET /api/events` answers 200 with the empty list, and
`POST /api/events` (with its required fields present) answers 201 with a
locally synthesized record whose id is the serving side's current timestamp
rendered as a string, status `"scheduled"`, and the body's fields echoed. -/
theorem degraded_mode_spec (dbG : Except String (List StoredEvent))
    (dbP : Except String StoredEvent) (nowMs : Int) (nowIso : String) (body : PostBody)
    (ht : body.title.isEmpty = false) (hc : body.club.isEmpty = false)
    (hs : body.starts_at.isEmpty = false) (hl : body.location.isEmpty = false) :
    getEventsRoute false dbG = ApiResponse.ok 200 []
    ∧ postEventsRoute false dbP nowMs nowIso body
        = ApiResponse.ok 201
            { id := toString nowMs
            , title := body.title
            , club := body.club
            , starts_at := body.starts_at
            , ends_at := body.ends_at
            , location := body.location
            , tags := body.tags.getD []
            , current_attendees := body.current_attendees.getD 0
            , status := ("scheduled")
            , created_at := nowIso } := by
  constructor
  · rfl
  · simp only [postEventsRoute, ht, hc, hs, hl]
    rfl

/-- Witness for C8 at a concrete body and timestamp. -/
theorem degraded_mode_spec_witness :
    getEventsRoute false (Except.error ("boom")) = ApiResponse.ok 200 []
    ∧ postEventsRoute false (Except.error ("boom")) 1719568800000 ("2024-06-28T08:00:00.000Z")
        { title := ("Hackathon Kickoff"), club := ("Tech Innovators"),
          starts_at := ("2025-01-01T10:00"), location := ("Innovation Hub"),
          ends_at := none, tags := some [("tech")], current_attendees := some 3 }
      = ApiResponse.ok 201
          { id := ("1719568800000")
          , title := ("Hackathon Kickoff")
          , club := ("Tech Innovators")
          , starts_at := ("2025-01-01T10:00")
          , ends_at := none
          , location := ("Innovation Hub")
          , tags := [("tech")]
          , current_attendees := 3
          , status := ("scheduled")
          , created_at := ("2024-06-28T08:00:00.000Z") } := by
  have h := degraded_mode_spec (Except.error ("boom")) (Except.error ("boom"))
    1719568800000 ("2024-06-28T08:00:00.000Z")
    { title := ("Hackathon Kickoff"), club := ("Tech Innovators"),
      starts_at := ("2025-01-01T10:00"), location := ("Innovation Hub"),
      ends_at := none, tags := some [("tech")], current_attendees := some 3 }
    (by decide) (by decide) (by decide) (by decide)
  refine ⟨h.1, ?_⟩
  rw [h.2]
  decide

/-- C9 counterexample: a `POST /api/events` whose body carries no tags at all
succeeds with 201, and the created record's tag set is empty — so not every
event record produced at creation has a non-empty tags set. -/
theorem post_without_tags_creates_empty_tags :
    postEventsRoute false (Except.error ("boom")) 1719568800000 ("2024-06-28T08:00:00.000Z")
        { title := ("Untagged"), club := ("Club"), starts_at := ("2025-01-01T10:00"),
          location := ("Hall"), ends_at := none, tags := none, current_attendees := none }
      = ApiResponse.ok 201
          { id := ("1719568800000")
          , title := ("Untagged")
          , club := ("Club")
          , starts_at := ("2025-01-01T10:00")
          , ends_at := none
          , location := ("Hall")
          , tags := []
          , current_attendees := 0
          , status := ("scheduled")
          , created_at := ("2024-06-28T08:00:00.000Z") } := by
  decide

/-- C9 (amended): the non-empty-tags invariant is enforced only by the
creation form's validation path — every payload the form actually posts has at
least one tag; the POST route itself accepts tag-less bodies (see the
counterexample). -/
theorem posted_payload_tags_nonempty (fd : EventFormData) (now : Int) (p : PostPayload)
    (h : handleSubmit fd now = SubmitOutcome.posted p) : p.tags ≠ [] := by
  unfold handleSubmit at h
  by_cases hv : hasNoErrors (validateForm fd now) = true
  · rw [if_pos hv] at h
    have htags : (validateForm fd now).tags = none := by
      simp only [hasNoErrors, Bool.and_eq_true, Option.isNone_iff_eq_none] at hv
      exact hv.2
    simp only [validateForm] at htags
    have hne : fd.tags ≠ [] := by
      intro hnil
      rw [if_pos (by simp [hnil])] at htags
      exact Option.some_ne_none _ htags
    injection h with h
    rw [← h]
    exact hne
  · rw [if_neg hv] at h
    exact absurd h (by simp)

/-- Witness for C9 (amended) at a concrete valid form submission. -/
theorem posted_payload_tags_nonempty_witness :
    ({ title := ("T"), club := ("C"), starts_at := some 100, ends_at := none,
       location := ("L"), tags := [("tech")], current_attendees := 0 : PostPayload }).tags ≠ [] :=
  posted_payload_tags_nonempty
    { title := ("T"), club := ("C"), starts_at := some 100, ends_at := none,
      location := ("L"), tags := [("tech")], current_attendees := 0 }
    50
    { title := ("T"), club := ("C"), starts_at := some 100, ends_at := none,
      location := ("L"), tags := [("tech")], current_attendees := 0 }
    (by decide)

end CampusPlus
